import Mathlib

/-!
A verification development for the reference TCP file-management server
(`server_script/tcp_server.py`).  The Python source is shallowly embedded:
byte strings become `List Nat` (each entry stands for one byte, `< 256`),
machine integers become `Nat`/`Int` with explicit `% 2 ^ w` where the source
truncates, fallible code returns `Option`, and the in-memory session tables
become explicit state values threaded through the handler functions.
-/

namespace TcpServer

/-! ## CRC8 (tcp_server.py `_build_crc8_table` / `calculate_crc8`)

The source builds a 256-entry table with polynomial 0x07 and folds
`crc = CRC8_TABLE[crc ^ byte]` over the data.  `crc8Byte v` computes the
table entry for `v` (eight shift/xor rounds), so the fold below is the
table-based `calculate_crc8`. -/

/-- One polynomial round of `_build_crc8_table`:
`crc = ((crc << 1) ^ 0x07) & 0xFF` when the high bit is set, else
`(crc << 1) & 0xFF`. -/
def crc8Round (crc : Nat) : Nat :=
  if crc % 256 ≥ 128 then ((crc * 2) ^^^ 0x07) % 256 else (crc * 2) % 256

/-- The CRC8 table entry for byte `v`: eight rounds of `crc8Round`. -/
def crc8Byte (v : Nat) : Nat :=
  crc8Round (crc8Round (crc8Round (crc8Round
    (crc8Round (crc8Round (crc8Round (crc8Round v)))))))

/-- `calculate_crc8`: fold the table lookup over the data with seed 0. -/
def calculate_crc8 (data : List Nat) : Nat :=
  data.foldl (fun crc b => crc8Byte ((crc ^^^ b) % 256)) 0

/-! ## Byte-order helpers (`struct.pack`/`struct.unpack` with `<I` and `<H`) -/

/-- `struct.pack('<H', n)`: two little-endian bytes. -/
def le16 (n : Nat) : List Nat :=
  [n % 256, n / 256 % 256]

/-- `struct.pack('<I', n)`: four little-endian bytes. -/
def le32 (n : Nat) : List Nat :=
  [n % 256, n / 256 % 256, n / 65536 % 256, n / 16777216 % 256]

/-- `struct.unpack('<H', b[0:2])` on the first two entries of a byte list. -/
def readLE16 (l : List Nat) : Nat :=
  l.getD 0 0 + l.getD 1 0 * 256

/-- `struct.unpack('<I', b[0:4])` on the first four entries of a byte list. -/
def readLE32 (l : List Nat) : Nat :=
  l.getD 0 0 + l.getD 1 0 * 256 + l.getD 2 0 * 65536 + l.getD 3 0 * 16777216

/-! ## Framing codec (`parse_frame` / `build_response_frame`) -/

/-- The decoded frame dictionary returned by `parse_frame`:
`{'command', 'format', 'sequence', 'data', 'data_length', 'crc'}`. -/
structure Frame where
  command : Nat
  format : Nat
  sequence : Nat
  data : List Nat
  data_length : Nat
  crc : Nat
  deriving Repr, DecidableEq

/-- The scan in `parse_frame` looking for the first index `i` with
`buffer[i] == 0xAA and buffer[i+1] == 0x55`. -/
def findMagic : List Nat → Option Nat
  | a :: b :: rest =>
    if a = 0xAA ∧ b = 0x55 then some 0
    else (findMagic (b :: rest)).map (· + 1)
  | _ => none

/-- `parse_frame(buffer)`: returns the decoded frame and the consumed byte
count `13 + L`, or `none` when no complete frame is available, the declared
length exceeds 4 MiB, or the trailer is wrong.  The CRC is computed over
bytes `[2, 10+L)` but a mismatch is only logged, never rejected; the stored
CRC byte is recorded in the frame's `crc` field.  Note that the consumed
count is relative to the buffer *after* the discarded pre-magic bytes,
exactly as in the source (which slices a local copy). -/
def parse_frame (buffer : List Nat) : Option (Frame × Nat) :=
  if buffer.length < 13 then none
  else
    match findMagic buffer with
    | none => none
    | some i =>
      let buf := buffer.drop i
      if buf.length < 6 then none
      else
        let data_length := readLE32 (buf.drop 2)
        if data_length > 4 * 1024 * 1024 then none
        else
          let total_length := 13 + data_length
          if buf.length < total_length then none
          else
            let sequence := readLE16 (buf.drop 6)
            let command := buf.getD 8 0
            let format_type := buf.getD 9 0
            let data := (buf.drop 10).take data_length
            let crc8 := buf.getD (10 + data_length) 0
            let trailer_pos := 11 + data_length
            if trailer_pos + 1 ≥ buf.length then none
            else
              let trailer := buf.getD trailer_pos 0 * 256 + buf.getD (trailer_pos + 1) 0
              if trailer ≠ 0x55AA then none
              else
                some (⟨command, format_type, sequence, data, data_length, crc8⟩,
                      total_length)

/-- The bytes of a frame from the length field through the payload:
`le32 L ++ le16 seq ++ [command, format] ++ payload`.  This is exactly the
range the source feeds to `calculate_crc8` on both encode and decode. -/
def frameBody (command format_type seq : Nat) (data : List Nat) : List Nat :=
  le32 data.length ++ le16 seq ++ [command, format_type] ++ data

/-- A full frame byte string with an explicitly chosen CRC byte:
magic `0xAA 0x55`, body, CRC byte, trailer `0x55 0xAA`. -/
def mkFrameBytes (command format_type seq : Nat) (data : List Nat)
    (crc : Nat) : List Nat :=
  0xAA :: 0x55 :: (frameBody command format_type seq data ++ [crc, 0x55, 0xAA])

/-- `build_response_frame(command, format_type, data_bytes, sequence)` for a
payload that is already a byte string: magic, length, sequence, command,
format, payload, CRC8 over bytes `[2, 10+L)`, trailer `0x55 0xAA`.
(`bytearray.append` in the source rejects values ≥ 256, hence the `% 256`
reductions; all call sites pass byte-sized values.) -/
def build_response_frame (command : Nat) (format_type : Nat)
    (data_bytes : List Nat) (sequence : Nat) : List Nat :=
  let body := frameBody (command % 256) (format_type % 256) sequence data_bytes
  0xAA :: 0x55 :: (body ++ [calculate_crc8 body, 0x55, 0xAA])

/-- A byte string is a well-formed frame when it consists of the magic
prefix, a length field matching the payload length (at most 4 MiB), a
sequence number, command and format bytes, the payload, one CRC byte and
the trailer `0x55 0xAA`.  The CRC byte is *not* constrained here: the
decoder accepts any value (§4.2 of the spec). -/
def WellFormedFrame (b : List Nat) : Prop :=
  ∃ cmd fmt seq crc : Nat, ∃ data : List Nat,
    cmd < 256 ∧ fmt < 256 ∧ seq < 65536 ∧ crc < 256 ∧ (∀ x ∈ data, x < 256) ∧
    data.length ≤ 4194304 ∧ b = mkFrameBytes cmd fmt seq data crc

/-- The stored CRC byte of a frame byte string (position `length - 3`)
equals the CRC8 computed over the bytes from the length field through the
payload (positions `[2, length - 3)`), i.e. the check the decoder performs. -/
def FrameCrcOk (b : List Nat) : Prop :=
  b.getD (b.length - 3) 0 = calculate_crc8 ((b.drop 2).take (b.length - 5))

/-! ## Path sandbox (`get_safe_path`)

Operating-system paths are modelled as lists of components; an absolute
path `/a/b` is `["a", "b"]`.  `Path.resolve()` is modelled lexically
(symbolic links are not part of the model).  The configured root
(`self.root_dir`) is itself already resolved by `__init__`. -/

/-- Split a character list on `/` (the splitting step of pathlib's
parsing). -/
def splitSlashAux (cur : List Char) : List Char → List (List Char)
  | [] => [cur.reverse]
  | c :: cs =>
    if c = '/' then cur.reverse :: splitSlashAux [] cs
    else splitSlashAux (c :: cur) cs

/-- Python `s.startswith(pre)`: character-wise prefix test. -/
def pyStartswith (pre s : String) : Bool :=
  List.isPrefixOf pre.data s.data

/-- Python `s[1:]`. -/
def pyDropFirst (s : String) : String :=
  String.mk (s.data.drop 1)

/-- The components pathlib extracts from a path string: split on `/`,
dropping empty components and `.` (pathlib keeps `..`). -/
def pyPathParts (p : String) : List String :=
  ((splitSlashAux [] p.data).map (fun l => String.mk l)).filter
    (fun c => !(c == "") && !(c == "."))

/-- Lexical `Path.resolve()` on an absolute component list: `..` removes
the last component (staying at the filesystem root when empty), every
other component is appended. -/
def resolveDots (parts : List String) : List String :=
  parts.foldl (fun acc c => if c = ".." then acc.dropLast else acc ++ [c]) []

/-- Join components with `/`. -/
def joinSlash : List String → String
  | [] => ""
  | [x] => x
  | x :: xs => x ++ ("/") ++ joinSlash xs

/-- `str(path)` for an absolute component list. -/
def renderPath (parts : List String) : String :=
  if parts = [] then ("/") else ("/") ++ joinSlash parts

/-- `Path(base) / s`: when `s` is absolute it replaces the base entirely. -/
def pyJoin (base : List String) (s : String) : List String :=
  if pyStartswith ("/") s then pyPathParts s else base ++ pyPathParts s

/-- `get_safe_path(path)`: strip one leading `/`, join onto the root,
resolve, then require `str(target).startswith(str(root))`; `none` models
the `ValueError` raised when the check fails. -/
def get_safe_path (root : List String) (path : String) : Option (List String) :=
  let path := if pyStartswith ("/") path then pyDropFirst path else path
  let resolved := resolveDots (pyJoin root path)
  if pyStartswith (renderPath root) (renderPath resolved) then some resolved
  else none

/-- The spec-side notion of lying under the root: the root's components are
a component-wise prefix of the resolved path. -/
def underRoot (root q : List String) : Prop :=
  ∃ rest, q = root ++ rest

/-! ## File store model

A file system is a map from resolved component lists to nodes.  Directory
creation (`mkdir`) is not modelled; only file contents matter to the
claims below. -/

/-- A filesystem node: a regular file with its bytes, or a directory. -/
inductive FsNode where
  | file (content : List Nat)
  | dir
  deriving DecidableEq

/-- The file store: resolved path components to node. -/
def Fs : Type := List String → Option FsNode

/-- Point update of a file store. -/
def fsSet (fs : Fs) (p : List String) (n : Option FsNode) : Fs :=
  fun q => if q = p then n else fs q

/-! ## Python-dict and truthiness helpers

The session tables are Python dicts: insertion-ordered, updated in place,
new keys appended last (`list(keys)[-1]` is the most recent insertion).
`a or b` on strings/ints treats `''` and `0` as falsy. -/

/-- Dict lookup. -/
def dictGet {α : Type} (t : List (String × α)) (k : String) : Option α :=
  (t.find? (fun p => p.1 == k)).map (fun p => p.2)

/-- Dict update: replace in place when present, append otherwise. -/
def dictSet {α : Type} (t : List (String × α)) (k : String) (v : α) :
    List (String × α) :=
  if (t.find? (fun p => p.1 == k)).isSome then
    t.map (fun p => if p.1 == k then (k, v) else p)
  else t ++ [(k, v)]

/-- `dict.pop(k, None)`: drop the binding when present. -/
def dictPop {α : Type} (t : List (String × α)) (k : String) :
    List (String × α) :=
  t.filter (fun p => !(p.1 == k))

/-- Python `a or b` for optional strings (`''` is falsy). -/
def pyOrStr (a b : Option String) : Option String :=
  match a with
  | some s => if s = "" then b else some s
  | none => b

/-- Python `a or b` for optional non-negative ints (`0` is falsy). -/
def pyOrNat (a b : Option Nat) : Option Nat :=
  match a with
  | some n => if n = 0 then b else some n
  | none => b

/-! ## Responses

One structure mirrors the response dictionaries; a field that the handler
does not set is `none` (the encoder omits absent fields). -/

/-- `serverInfo` nested message. -/
structure ServerInfo where
  name : String := ""
  version : String := ""
  protocol : String := ""
  supportedFormats : List String := []
  rootDir : String := ""
  maxFileSize : Option Nat := none
  chunkSize : Option Nat := none
  deriving DecidableEq

/-- One `FileInfo` record as built by `handle_list_files`. -/
structure FileInfo where
  name : String := ""
  path : String := ""
  type : String := ""
  size : Nat := 0
  lastModified : String := ""
  permissions : String := ""
  isReadonly : Bool := false
  mimeType : Option String := none
  deriving DecidableEq

/-- A response dictionary. -/
structure Response where
  success : Bool := false
  message : String := ""
  files : List FileInfo := []
  data : Option (List Nat) := none
  filename : Option String := none
  chunkIndex : Option Nat := none
  totalChunks : Option Nat := none
  processTimeMs : Option Int := none
  fileSize : Option Nat := none
  timestamp : Option Int := none
  sessionId : Option String := none
  acceptedChunkSize : Option Nat := none
  bytesSent : Option Nat := none
  receivedChunks : Option Nat := none
  done : Option Bool := none
  supportsResume : Option Bool := none
  selectedFormat : Option String := none
  serverInfo : Option ServerInfo := none
  deriving DecidableEq

/-! ## `handle_delete_file`

Used by the sandbox claim: the resolution failure is the `ValueError`
raised by `get_safe_path`, caught by the handler's `except` clause. -/

/-- `handle_delete_file` on the file-store model.  Directory removal is
`shutil.rmtree`, i.e. every path below the target disappears. -/
def handle_delete_file (root : List String) (fs : Fs) (path : String) :
    Response × Fs :=
  if path = "" then ({ success := false, message := "缺少文件路径参数" }, fs)
  else
    match get_safe_path root path with
    | none => ({ success := false, message := "删除失败: 路径超出安全范围: " ++ path }, fs)
    | some target =>
      match fs target with
      | none => ({ success := false, message := "文件或目录不存在: " ++ path }, fs)
      | some (FsNode.file _) =>
        ({ success := true, message := "文件删除成功" }, fsSet fs target none)
      | some FsNode.dir =>
        ({ success := true, message := "目录删除成功" },
          fun q => if target.isPrefixOf q then none else fs q)

/-! ## `handle_list_files`

The directory walk of lines 1042–1057: the children returned by
`iterdir()` with their `stat` results are the input; `sorted()` compares
the `Path` objects, which for children of one directory is a
case-sensitive (codepoint) comparison of the names. -/

/-- One directory child together with its `stat` data. -/
structure DirEntry where
  name : String := ""
  relPath : String := ""
  isDir : Bool := false
  stSize : Nat := 0
  mtimeIso : String := ""
  permOctal : String := ""
  writable : Bool := true
  deriving DecidableEq

/-- The `file_info` dictionary built for one child (lines 1048–1056);
`size` is `stat.st_size` for files and `0` for directories. -/
def entryToFileInfo (e : DirEntry) : FileInfo :=
  { name := e.name
    path := e.relPath
    type := if e.isDir then ("directory") else ("file")
    size := if e.isDir then 0 else e.stSize
    lastModified := e.mtimeIso
    permissions := e.permOctal
    isReadonly := !e.writable }

/-- Python `str.__lt__`: lexicographic comparison of the codepoint
sequences. -/
def nameLt (a b : String) : Prop :=
  List.Lex (· < ·) a.data b.data

instance nameLt.decidable (a b : String) : Decidable (nameLt a b) :=
  List.Lex.decidableRel _ a.data b.data

/-- `a <= b` on Python strings, i.e. `not (b < a)`. -/
def nameLe (a b : String) : Prop :=
  ¬ nameLt b a

instance nameLe.decidable (a b : String) : Decidable (nameLe a b) :=
  instDecidableNot

/-- `str.lower()` restricted to the ASCII mapping of `Char.toLower`
(the sample names are ASCII); used only to state the spec's
case-insensitive ordering. -/
def lowerStr (s : String) : String :=
  String.mk (s.data.map Char.toLower)

/-- The spec's case-insensitive name order, modelled from the spec words
"sort by name case-insensitively". -/
def specCaseInsensitiveLe (a b : FileInfo) : Prop :=
  nameLe (lowerStr a.name) (lowerStr b.name)

instance specCaseInsensitiveLe.decidable (a b : FileInfo) :
    Decidable (specCaseInsensitiveLe a b) :=
  nameLe.decidable _ _

/-- Insertion step of the sort, ordered by the case-sensitive name
comparison `sorted(target_path.iterdir())` performs (for children of one
directory, `Path` ordering is the codepoint ordering of the names). -/
def insertSorted (e : DirEntry) : List DirEntry → List DirEntry
  | [] => [e]
  | x :: xs =>
    if nameLe e.name x.name then e :: x :: xs else x :: insertSorted e xs

/-- `sorted(target_path.iterdir())` on the children of one directory. -/
def sortEntries (l : List DirEntry) : List DirEntry :=
  l.foldr insertSorted []

/-- The `files` list `handle_list_files` returns for the directory's
children. -/
def list_files_entries (entries : List DirEntry) : List FileInfo :=
  (sortEntries entries).map entryToFileInfo

/-! ## Timing attachment (`process_request` lines 1001–1004, `handle_connect`,
and the unsupported-format path of `handle_frame_protocol`)

`t0` is the clock sampled when `process_request` enters, `t1` the clock
when the selected handler has returned, both in epoch milliseconds.  The
handlers below that bypass `process_request` stamp only `timestamp`. -/

/-- Lines 1001–1004: attach `processTimeMs` and `timestamp` to the
response the dispatched handler returned. -/
def process_request_timing (resp : Response) (t0 t1 : Int) : Response :=
  { resp with processTimeMs := some (t1 - t0), timestamp := some t1 }

/-- `handle_connect` (lines 916–930): called directly by
`process_frame_request`, bypassing the timing wrapper. -/
def handle_connect (root : List String) (now : Int) : Response :=
  { success := true
    message := "Connected successfully (Protobuf-only)"
    selectedFormat := some ("protobuf")
    serverInfo := some
      { name := "Protobuf TCP File Server"
        version := "2.0.0"
        protocol := "Protobuf over TCP"
        supportedFormats := ["protobuf"]
        rootDir := renderPath root
        maxFileSize := some 104857600
        chunkSize := some 65536 }
    timestamp := some now }

/-- The error response of `handle_frame_protocol` (lines 331–335) for a
frame whose format tag is not `0x02`. -/
def format_error_response (now : Int) : Response :=
  { success := false
    message := "仅支持Protobuf格式 (0x02)"
    timestamp := some now }

/-! ## Download sessions (`handle_download_req`) -/

/-- One entry of `self.download_sessions`. -/
structure DownloadSession where
  path : String := ""
  absolutePath : List String := []
  fileSize : Nat := 0
  chunkSize : Nat := 2097152
  totalChunks : Nat := 1
  nextChunk : Nat := 0
  bytesSent : Nat := 0
  startTime : Int := 0
  clientId : String := ""
  servedChunks : Finset Nat := ∅
  deriving DecidableEq

/-- The fields of a `DOWNLOAD_REQ` request the handler reads.  `options`
values arrive as strings and are parsed with `_to_int`; unparsable or
absent values are `none` here. -/
structure DlRequest where
  path : String := ""
  optionsAction : Option String := none
  requestAction : Option String := none
  optionsSessionId : Option String := none
  requestSessionId : Option String := none
  requestChunkIndex : Option Nat := none
  optionsChunkIndex : Option Nat := none
  optionsChunkSize : Option Nat := none
  requestChunkSize : Option Nat := none
  clientId : String := ""
  deriving DecidableEq

/-- The `chunk` flow of `handle_download_req` (lines 1234–1311), entered
with the session already looked up; `content` is the target file's bytes
(the source reopens the file unbuffered for each chunk).  The requested
index defaults to `nextChunk` through the
`request.get('chunkIndex') or options.get('chunkIndex')` truthiness chain. -/
def download_chunk (s : DownloadSession) (content : List Nat) (sid : String)
    (reqIdx optIdx : Option Nat) : DownloadSession × Response :=
  let requested_index := (pyOrNat reqIdx optIdx).getD s.nextChunk
  if requested_index ≥ s.totalChunks then
    (s, { success := false, message := "分块序号超出范围" })
  else
    let start_offset := requested_index * s.chunkSize
    let chunk_data := (content.drop start_offset).take s.chunkSize
    if chunk_data = [] then
      (s, { success := true, message := "已达文件末尾", data := some []
            fileSize := some s.fileSize, chunkIndex := some requested_index
            totalChunks := some s.totalChunks, sessionId := some sid
            done := some true })
    else
      let s' :=
        if requested_index ∈ s.servedChunks then
          { s with nextChunk := max s.nextChunk (requested_index + 1) }
        else
          { s with servedChunks := insert requested_index s.servedChunks
                   bytesSent := s.bytesSent + chunk_data.length
                   nextChunk := max s.nextChunk (requested_index + 1) }
      (s', { success := true, message := "块获取成功", data := some chunk_data
             fileSize := some s.fileSize, chunkIndex := some requested_index
             totalChunks := some s.totalChunks, sessionId := some sid })

/-- `handle_download_req`.  The source's `finish`/`abort` branches sit
*after* the unconditional `return` of the `chunk` flow and are therefore
unreachable; moreover, for any action other than `start` and `chunk`,
line 1234 (`session = self.download_sessions[session_id]`) runs with the
local `session_id` never assigned, so Python raises `UnboundLocalError`,
caught by the handler's `except` clause which answers
`success=False, '分块下载失败: …'` and leaves the table untouched. -/
def handle_download_req (root : List String) (fs : Fs)
    (sessions : List (String × DownloadSession)) (req : DlRequest)
    (now : Int) : Response × List (String × DownloadSession) :=
  if req.path = "" then
    ({ success := false, message := "缺少文件路径参数" }, sessions)
  else
    match get_safe_path root req.path with
    | none =>
      ({ success := false, message := "分块下载失败: 路径超出安全范围" }, sessions)
    | some target =>
      match fs target with
      | none => ({ success := false, message := "文件不存在: " ++ req.path }, sessions)
      | some FsNode.dir => ({ success := false, message := "不是文件: " ++ req.path }, sessions)
      | some (FsNode.file content) =>
        match pyOrStr req.optionsAction req.requestAction with
        | none => ({ success := false, message := "缺少下载动作参数" }, sessions)
        | some action =>
          if action = "start" then
            let requested_chunk := pyOrNat req.optionsChunkSize req.requestChunkSize
            let chunk_bytes := max 65536 (min (requested_chunk.getD 2097152) 4194304)
            let file_size := content.length
            let total_chunks := max 1 ((file_size + chunk_bytes - 1) / chunk_bytes)
            let session_id := "dl_" ++ toString now ++ "_" ++ target.getLastD ""
            let s : DownloadSession :=
              { path := req.path, absolutePath := target, fileSize := file_size
                chunkSize := chunk_bytes, totalChunks := total_chunks
                nextChunk := 0, bytesSent := 0, startTime := now
                clientId := req.clientId, servedChunks := ∅ }
            ({ success := true, message := "下载会话已创建"
               sessionId := some session_id, acceptedChunkSize := some chunk_bytes
               totalChunks := some total_chunks, fileSize := some file_size
               supportsResume := some true }, dictSet sessions session_id s)
          else if action = "chunk" then
            match pyOrStr req.optionsSessionId req.requestSessionId with
            | none => ({ success := false, message := "下载会话不存在或已结束" }, sessions)
            | some session_id =>
              match dictGet sessions session_id with
              | none => ({ success := false, message := "下载会话不存在或已结束" }, sessions)
              | some s =>
                let r := download_chunk s content session_id
                  req.requestChunkIndex req.optionsChunkIndex
                (r.2, dictSet sessions session_id r.1)
          else
            ({ success := false
               message := "分块下载失败: cannot access local variable session_id" },
              sessions)

/-! ## Upload sessions (`handle_upload_req` / `handle_upload_data`) -/

/-- One entry of `self.upload_sessions`.  The open `r+b` handle is the
pair of `handleOpen` and the file bytes living in the file store. -/
structure UploadSession where
  path : String := "/"
  filename : String := ""
  file_path : List String := []
  total_chunks : Nat := 0
  chunk_size : Nat := 65536
  file_size : Nat := 0
  start_time : Int := 0
  last_activity : Int := 0
  received_chunks : Finset Nat := ∅
  bytes_received : Nat := 0
  handleOpen : Bool := true
  deriving DecidableEq

/-- `seek(offset); write(data)` on a file opened `r+b`: bytes before the
offset are kept (zero-filled when seeking past the end), `data` overwrites
in place, the remainder is kept. -/
def writeAt (content : List Nat) (offset : Nat) (data : List Nat) : List Nat :=
  let padded := content ++ List.replicate (offset - content.length) 0
  padded.take offset ++ data ++ padded.drop (offset + data.length)

/-- The per-chunk body of `handle_upload_data` (lines 1637–1696), entered
with the session already resolved.  `data` is the chunk's raw bytes (the
protobuf decoder always delivers `bytes`, so the base64 branch is not
taken).  The write goes through the session's handle to the target file;
`received_chunks`/`bytes_received` are updated afterwards, counting the
length only for a first delivery of the index. -/
def upload_data_core (s : UploadSession) (fs : Fs) (sid : String)
    (chunkIndex : Nat) (data : List Nat) (totalChunksReq : Option Nat)
    (now : Int) : UploadSession × Fs × Response :=
  let s := { s with last_activity := now }
  let total_chunks := totalChunksReq.getD s.total_chunks
  let offset := chunkIndex * s.chunk_size
  match fs s.file_path with
  | some (FsNode.file c) =>
    let fs' := fsSet fs s.file_path (some (FsNode.file (writeAt c offset data)))
    let was_received := chunkIndex ∈ s.received_chunks
    let s' :=
      { s with received_chunks := insert chunkIndex s.received_chunks
               bytes_received :=
                 if was_received then s.bytes_received
                 else s.bytes_received + data.length }
    (s', fs',
      { success := true, message := "数据块接收成功", sessionId := some sid
        chunkIndex := some chunkIndex
        receivedChunks := some s'.received_chunks.card
        totalChunks := some total_chunks })
  | _ =>
    (s, fs, { success := false, message := "接收数据块失败: 文件不存在" })

/-- The fields of an `UPLOAD_REQ` request the handler reads. -/
structure UpReq where
  path : String := "/"
  name : Option String := none
  fileSize : Option Nat := none
  chunkSize : Option Nat := none
  totalChunks : Option Nat := none
  optionsSessionId : Option String := none
  deriving DecidableEq

/-- `handle_upload_req` (lines 1521–1609).  Any stale session under the
same id is popped and its handle closed *before* the target path is
resolved, so a later failure does not restore it.  The target file is
created by `open(full_path, 'wb')` (truncating any existing file to zero)
and then extended to `fileSize` zero bytes by `truncate`; the fresh
session starts with an empty `received_chunks` and `bytes_received = 0`.
`mkdir(parents=True)` is not modelled (directories carry no state here). -/
def handle_upload_req (root : List String) (fs : Fs)
    (sessions : List (String × UploadSession)) (req : UpReq) (now : Int) :
    Response × List (String × UploadSession) × Fs :=
  let filename := (req.name).getD ""
  let file_size := (req.fileSize).getD 0
  let chunk_size := min ((req.chunkSize).getD 65536) 4194304
  let total_chunks := (req.totalChunks).getD 0
  if filename = "" then
    ({ success := false, message := "缺少文件名参数" }, sessions, fs)
  else
    let client_session_id := (req.optionsSessionId).getD ""
    let session_id :=
      if client_session_id ≠ "" then client_session_id
      else toString now ++ "_" ++ filename
    let sessions := dictPop sessions session_id
    let target_dir? :=
      if req.path = "/" then some root else get_safe_path root req.path
    match target_dir? with
    | none =>
      ({ success := false, message := "创建上传会话失败: 路径超出安全范围" },
        sessions, fs)
    | some target_dir =>
      let full_path := resolveDots (pyJoin target_dir filename)
      let fs' := fsSet fs full_path (some (FsNode.file (List.replicate file_size 0)))
      let total_chunks :=
        if total_chunks = 0 ∧ chunk_size > 0 then
          max 1 ((file_size + chunk_size - 1) / chunk_size)
        else total_chunks
      let s : UploadSession :=
        { path := req.path, filename := filename, file_path := full_path
          total_chunks := total_chunks, chunk_size := chunk_size
          file_size := file_size, start_time := now, last_activity := now
          received_chunks := ∅, bytes_received := 0, handleOpen := true }
      ({ success := true, message := "上传会话已创建"
         sessionId := some session_id, acceptedChunkSize := some chunk_size },
        dictSet sessions session_id s, fs')

/-! ## Sequences of session operations -/

/-- Run a sequence of `chunk` requests against one download session (each
pair is the request's `chunkIndex` field and `options.chunkIndex`). -/
def runChunks (s : DownloadSession) (content : List Nat) (sid : String)
    (reqs : List (Option Nat × Option Nat)) : DownloadSession :=
  reqs.foldl (fun st r => (download_chunk st content sid r.1 r.2).1) s

/-- Run a sequence of `UPLOAD_DATA` deliveries (chunk index and raw bytes)
against one upload session and the file store. -/
def runUploadData (s : UploadSession) (fs : Fs) (sid : String) (now : Int)
    (deliveries : List (Nat × List Nat)) : UploadSession × Fs :=
  deliveries.foldl
    (fun st d =>
      let r := upload_data_core st.1 st.2 sid d.1 d.2 none now
      (r.1, r.2.1))
    (s, fs)

/-! ## Concrete sample data used by counterexamples and witnesses -/

/-- A sample resolved root directory `/srv/tcp_test_root`. -/
def sampleRoot : List String := ["srv", "tcp_test_root"]

/-- A download session over a 3-byte file, as `action=start` creates it. -/
def c2session : DownloadSession :=
  { path := "/f.bin", absolutePath := ["srv", "tcp_test_root", "f.bin"]
    fileSize := 3, chunkSize := 2097152, totalChunks := 1, nextChunk := 0
    bytesSent := 0, startTime := 0, clientId := "c", servedChunks := ∅ }

/-- A file store holding the 3-byte file of `c2session`. -/
def c2fs : Fs :=
  fun p => if p = ["srv", "tcp_test_root", "f.bin"] then
    some (FsNode.file [1, 2, 3]) else none

/-- A `DOWNLOAD_REQ` carrying `options.action = finish` for that session. -/
def c2req : DlRequest :=
  { path := "/f.bin", optionsAction := some ("finish")
    optionsSessionId := some ("sid1") }

/-- The CRC8 the encoder computes for an empty-payload frame with
command 1, format 2, sequence 0. -/
def c3goodCrc : Nat := calculate_crc8 (frameBody 1 2 0 [])

/-- That frame with the correct CRC byte. -/
def c3good : List Nat := mkFrameBytes 1 2 0 [] c3goodCrc

/-- The same frame with a corrupted CRC byte. -/
def c3bad : List Nat := mkFrameBytes 1 2 0 [] ((c3goodCrc + 1) % 256)

/-- A well-formed frame (command 1, format 2, sequence 7, payload `[9]`)
whose stored CRC byte is wrong. -/
def c5bad : List Nat :=
  mkFrameBytes 1 2 7 [9] ((calculate_crc8 (frameBody 1 2 7 [9]) + 1) % 256)

/-- The same frame as `c5bad` with the correct CRC byte. -/
def c5good : List Nat :=
  mkFrameBytes 1 2 7 [9] (calculate_crc8 (frameBody 1 2 7 [9]))

/-- A buffer beginning with a frame header whose declared length is
4 MiB + 1, followed by a complete well-formed frame. -/
def c4buffer : List Nat :=
  0xAA :: 0x55 :: (le32 4194305 ++
    mkFrameBytes 1 2 7 [9] (calculate_crc8 (frameBody 1 2 7 [9])))

/-- A lower-case directory child. -/
def entryLowerA : DirEntry :=
  { name := "a.txt", relPath := "/a.txt", isDir := false, stSize := 5
    mtimeIso := "2024-01-01T00:00:00Z", permOctal := "644", writable := true }

/-- An upper-case directory child. -/
def entryUpperB : DirEntry :=
  { name := "B.txt", relPath := "/B.txt", isDir := false, stSize := 7
    mtimeIso := "2024-01-01T00:00:00Z", permOctal := "644", writable := true }

/-- A subdirectory child with a nonzero `st_size`. -/
def entryDirD : DirEntry :=
  { name := "docs", relPath := "/docs", isDir := true, stSize := 4096
    mtimeIso := "2024-01-01T00:00:00Z", permOctal := "755", writable := true }

/-- An upload session that has already received chunk 0. -/
def c10oldSession : UploadSession :=
  { path := "/", filename := "big.bin"
    file_path := ["srv", "tcp_test_root", "big.bin"]
    total_chunks := 2, chunk_size := 4, file_size := 8
    received_chunks := {0}, bytes_received := 4 }

/-- A file store with partially uploaded data at the target path. -/
def c10fs : Fs :=
  fun p => if p = ["srv", "tcp_test_root", "big.bin"] then
    some (FsNode.file [9, 9, 9, 9]) else none

/-- An `UPLOAD_REQ` naming the same session id and target file. -/
def c10req : UpReq :=
  { path := "/", name := some ("big.bin"), fileSize := some 8
    chunkSize := some 4, totalChunks := some 2
    optionsSessionId := some ("sid9") }

/-- A fresh upload session with 2-byte chunks. -/
def c6session : UploadSession :=
  { path := "/", filename := "u.bin"
    file_path := ["srv", "tcp_test_root", "u.bin"]
    total_chunks := 2, chunk_size := 2, file_size := 4 }

/-- The file store backing `c6session` (pre-truncated to 4 zero bytes). -/
def c6fs : Fs :=
  fun p => if p = ["srv", "tcp_test_root", "u.bin"] then
    some (FsNode.file [0, 0, 0, 0]) else none

/-- A fresh download session over a 3-byte file with 2-byte chunks. -/
def c7session : DownloadSession :=
  { path := "/f.bin", absolutePath := ["srv", "tcp_test_root", "f.bin"]
    fileSize := 3, chunkSize := 2, totalChunks := 2 }

/-! # Theorems -/

/-! ## Framing codec lemmas -/

theorem findMagic_magic (rest : List Nat) :
    findMagic (170 :: 85 :: rest) = some 0 := by
  simp [findMagic]

theorem getD_shift (a0 a1 a2 a3 a4 a5 a6 a7 a8 a9 : Nat) (mid after : List Nat)
    (n j : Nat) (h : n = 10 + mid.length + j) :
    (a0 :: a1 :: a2 :: a3 :: a4 :: a5 :: a6 :: a7 :: a8 :: a9 ::
      (mid ++ after)).getD n 0 = after.getD j 0 := by
  show (([a0, a1, a2, a3, a4, a5, a6, a7, a8, a9] : List Nat) ++
      (mid ++ after)).getD n 0 = after.getD j 0
  rw [List.getD_append_right _ _ _ _ (by simp; omega)]
  rw [List.getD_append_right _ _ _ _ (by simp; omega)]
  congr 1
  simp
  omega

theorem parse_frame_cons (l0 l1 l2 l3 s0 s1 cmdb fmtb crcb L seq : Nat)
    (data tail : List Nat)
    (h32 : l0 + l1 * 256 + l2 * 65536 + l3 * 16777216 = L)
    (h16 : s0 + s1 * 256 = seq)
    (hLdata : data.length = L) (hL : L ≤ 4194304) :
    parse_frame (170 :: 85 :: l0 :: l1 :: l2 :: l3 :: s0 :: s1 :: cmdb :: fmtb ::
        (data ++ crcb :: 85 :: 170 :: tail)) =
      some (⟨cmdb, fmtb, seq, data, L, crcb⟩, 13 + L) := by
  have hlen : (170 :: 85 :: l0 :: l1 :: l2 :: l3 :: s0 :: s1 :: cmdb :: fmtb ::
      (data ++ crcb :: 85 :: 170 :: tail)).length = 13 + L + tail.length := by
    simp [hLdata]; omega
  have h32' : readLE32 ((170 :: 85 :: l0 :: l1 :: l2 :: l3 :: s0 :: s1 :: cmdb :: fmtb ::
      (data ++ crcb :: 85 :: 170 :: tail)).drop 2) = L := by
    show l0 + l1 * 256 + l2 * 65536 + l3 * 16777216 = L
    exact h32
  have h16' : readLE16 ((170 :: 85 :: l0 :: l1 :: l2 :: l3 :: s0 :: s1 :: cmdb :: fmtb ::
      (data ++ crcb :: 85 :: 170 :: tail)).drop 6) = seq := by
    show s0 + s1 * 256 = seq
    exact h16
  have hgd8 : (170 :: 85 :: l0 :: l1 :: l2 :: l3 :: s0 :: s1 :: cmdb :: fmtb ::
      (data ++ crcb :: 85 :: 170 :: tail)).getD 8 0 = cmdb := rfl
  have hgd9 : (170 :: 85 :: l0 :: l1 :: l2 :: l3 :: s0 :: s1 :: cmdb :: fmtb ::
      (data ++ crcb :: 85 :: 170 :: tail)).getD 9 0 = fmtb := rfl
  have hdrop10 : List.drop 10 (170 :: 85 :: l0 :: l1 :: l2 :: l3 :: s0 :: s1 :: cmdb :: fmtb ::
      (data ++ crcb :: 85 :: 170 :: tail)) = data ++ crcb :: 85 :: 170 :: tail := rfl
  have htake : List.take L (data ++ crcb :: 85 :: 170 :: tail) = data := by
    rw [← hLdata]
    exact List.take_left data _
  have hcrc : (170 :: 85 :: l0 :: l1 :: l2 :: l3 :: s0 :: s1 :: cmdb :: fmtb ::
      (data ++ crcb :: 85 :: 170 :: tail)).getD (10 + L) 0 = crcb := by
    rw [getD_shift 170 85 l0 l1 l2 l3 s0 s1 cmdb fmtb data (crcb :: 85 :: 170 :: tail)
      (10 + L) 0 (by omega)]
    rfl
  have htr1 : (170 :: 85 :: l0 :: l1 :: l2 :: l3 :: s0 :: s1 :: cmdb :: fmtb ::
      (data ++ crcb :: 85 :: 170 :: tail)).getD (11 + L) 0 = 85 := by
    rw [getD_shift 170 85 l0 l1 l2 l3 s0 s1 cmdb fmtb data (crcb :: 85 :: 170 :: tail)
      (11 + L) 1 (by omega)]
    rfl
  have htr2 : (170 :: 85 :: l0 :: l1 :: l2 :: l3 :: s0 :: s1 :: cmdb :: fmtb ::
      (data ++ crcb :: 85 :: 170 :: tail)).getD (11 + L + 1) 0 = 170 := by
    rw [getD_shift 170 85 l0 l1 l2 l3 s0 s1 cmdb fmtb data (crcb :: 85 :: 170 :: tail)
      (11 + L + 1) 2 (by omega)]
    rfl
  simp only [parse_frame]
  rw [findMagic_magic]
  simp only [List.drop_zero]
  rw [h32', h16', hlen, hgd8, hgd9, hdrop10, htake, hcrc, htr1, htr2]
  rw [if_neg (by omega), if_neg (by omega), if_neg (by omega), if_neg (by omega),
    if_neg (by omega), if_neg (by norm_num)]

theorem mkFrameBytes_cons (cmd fmt seq crc : Nat) (data tail : List Nat) :
    mkFrameBytes cmd fmt seq data crc ++ tail
      = 170 :: 85 :: (data.length % 256) :: (data.length / 256 % 256) ::
        (data.length / 65536 % 256) :: (data.length / 16777216 % 256) ::
        (seq % 256) :: (seq / 256 % 256) :: cmd :: fmt ::
        (data ++ crc :: 85 :: 170 :: tail) := by
  simp [mkFrameBytes, frameBody, le32, le16]

theorem parse_frame_mk (cmd fmt seq crc : Nat) (data tail : List Nat)
    (hseq : seq < 65536) (hL : data.length ≤ 4194304) :
    parse_frame (mkFrameBytes cmd fmt seq data crc ++ tail) =
      some (⟨cmd, fmt, seq, data, data.length, crc⟩, 13 + data.length) := by
  rw [mkFrameBytes_cons]
  exact parse_frame_cons _ _ _ _ _ _ _ _ _ _ _ _ _ (by omega) (by omega) rfl hL

theorem parse_frame_mk_nil (cmd fmt seq crc : Nat) (data : List Nat)
    (hseq : seq < 65536) (hL : data.length ≤ 4194304) :
    parse_frame (mkFrameBytes cmd fmt seq data crc) =
      some (⟨cmd, fmt, seq, data, data.length, crc⟩, 13 + data.length) := by
  have h := parse_frame_mk cmd fmt seq crc data [] hseq hL
  simpa using h

theorem mkFrameBytes_length (cmd fmt seq crc : Nat) (data : List Nat) :
    (mkFrameBytes cmd fmt seq data crc).length = 13 + data.length := by
  simp [mkFrameBytes, frameBody, le32, le16]
  omega

theorem mkFrameBytes_drop (cmd fmt seq crc : Nat) (data tail : List Nat) :
    (mkFrameBytes cmd fmt seq data crc ++ tail).drop (13 + data.length) = tail := by
  rw [← mkFrameBytes_length cmd fmt seq crc data]
  exact List.drop_left _ _

theorem parse_frame_oversized (l0 l1 l2 l3 : Nat) (rest : List Nat)
    (h : l0 + l1 * 256 + l2 * 65536 + l3 * 16777216 > 4194304) :
    parse_frame (170 :: 85 :: l0 :: l1 :: l2 :: l3 :: rest) = none := by
  have h32' : readLE32 ((170 :: 85 :: l0 :: l1 :: l2 :: l3 :: rest).drop 2)
      = l0 + l1 * 256 + l2 * 65536 + l3 * 16777216 := rfl
  simp only [parse_frame]
  rw [findMagic_magic]
  simp only [List.drop_zero]
  rw [h32']
  rcases Nat.lt_or_ge (170 :: 85 :: l0 :: l1 :: l2 :: l3 :: rest).length 13 with hl | hl
  · rw [if_pos hl]
  · rw [if_neg (by omega), if_neg (by omega), if_pos (by omega)]

/-! ## C1: path sandbox -/

/-- Counterexample to C1: with root `/srv/tcp_test_root`, the request path
`/../tcp_test_root2/secret.txt` resolves to `/srv/tcp_test_root2/secret.txt`,
which passes the string-prefix check of `get_safe_path` (no error is
raised) yet does not lie under the root. -/
theorem C1_counterexample :
    get_safe_path sampleRoot "/../tcp_test_root2/secret.txt"
      = some ["srv", "tcp_test_root2", "secret.txt"] ∧
    ¬ underRoot sampleRoot ["srv", "tcp_test_root2", "secret.txt"] := by
  constructor
  · decide
  · rintro ⟨rest, h⟩
    simp [sampleRoot] at h

/-- C1 (amended): whenever `get_safe_path` succeeds, the string rendering
of the resolved path has the string rendering of the root as a prefix
(which admits sibling directories whose names extend the root's last
component); `/../etc/passwd` raises and `handle_delete_file` then answers
`success = false` without touching the file store. -/
theorem C1_sandbox_prefix (root : List String) (p : String) (q : List String)
    (h : get_safe_path root p = some q) :
    pyStartswith (renderPath root) (renderPath q) = true ∧
    get_safe_path sampleRoot "/../etc/passwd" = none ∧
    (∀ fs : Fs, (handle_delete_file sampleRoot fs "/../etc/passwd").1.success = false ∧
      (handle_delete_file sampleRoot fs "/../etc/passwd").2 = fs) := by
  refine ⟨?_, by decide, ?_⟩
  · simp only [get_safe_path] at h
    split at h
    · split at h
      · rename_i hc
        injection h with h2
        rw [← h2]
        exact hc
      · exact absurd h (by simp)
    · split at h
      · rename_i hc
        injection h with h2
        rw [← h2]
        exact hc
      · exact absurd h (by simp)
  · intro fs
    exact ⟨rfl, rfl⟩

/-- Witness for C1: the in-sandbox path `/docs` resolves successfully and
the theorem applies. -/
theorem C1_witness :
    pyStartswith (renderPath sampleRoot)
      (renderPath ["srv", "tcp_test_root", "docs"]) = true ∧
    get_safe_path sampleRoot "/../etc/passwd" = none ∧
    (∀ fs : Fs, (handle_delete_file sampleRoot fs "/../etc/passwd").1.success = false ∧
      (handle_delete_file sampleRoot fs "/../etc/passwd").2 = fs) :=
  C1_sandbox_prefix sampleRoot "/docs" ["srv", "tcp_test_root", "docs"] (by decide)

/-! ## C2: DOWNLOAD_REQ finish -/

/-- C2: with the session `sid1` present and the target file in place, a
`DOWNLOAD_REQ` with `options.action = finish` answers `success = false`
(the source raises `UnboundLocalError` before its unreachable `finish`
branch), returns neither `bytesSent` nor `fileSize`, and leaves the
session table unchanged. -/
theorem C2_finish_unreachable :
    (handle_download_req sampleRoot c2fs [("sid1", c2session)] c2req 0).1.success = false ∧
    (handle_download_req sampleRoot c2fs [("sid1", c2session)] c2req 0).1.bytesSent = none ∧
    (handle_download_req sampleRoot c2fs [("sid1", c2session)] c2req 0).1.fileSize = none ∧
    (handle_download_req sampleRoot c2fs [("sid1", c2session)] c2req 0).2
      = [("sid1", c2session)] := by
  decide
/-! ## C3: CRC mismatch tolerated -/

set_option maxRecDepth 8192 in
/-- Counterexample to C3: the same empty-payload frame with a corrupted
CRC byte still parses (not rejected), but the decoded frame is *not*
identical to the correct-CRC decode: the `crc` field records the stored
byte. -/
theorem C3_counterexample :
    (parse_frame c3bad).isSome = true ∧
    parse_frame c3bad ≠ parse_frame c3good := by
  decide

/-- C3 (amended): a frame whose stored CRC byte is arbitrary decodes
exactly like the correct-CRC frame — same command, format, sequence,
payload, length and consumed count — the only difference being the
decoded `crc` field, which records the stored byte. -/
theorem C3_crc_mismatch_tolerated (cmd fmt seq crc : Nat) (data : List Nat)
    (hseq : seq < 65536) (hL : data.length ≤ 4194304) :
    ∃ f n f2 n2,
      parse_frame (mkFrameBytes cmd fmt seq data crc) = some (f, n) ∧
      parse_frame (mkFrameBytes cmd fmt seq data
        (calculate_crc8 (frameBody cmd fmt seq data))) = some (f2, n2) ∧
      f.command = f2.command ∧ f.format = f2.format ∧
      f.sequence = f2.sequence ∧ f.data = f2.data ∧
      f.data_length = f2.data_length ∧ n = n2 ∧ f.crc = crc := by
  exact ⟨_, _, _, _, parse_frame_mk_nil cmd fmt seq crc data hseq hL,
    parse_frame_mk_nil cmd fmt seq _ data hseq hL,
    rfl, rfl, rfl, rfl, rfl, rfl, rfl⟩

/-- Witness for C3 at the concrete corrupted frame `c3bad`. -/
theorem C3_witness :
    ∃ f n f2 n2,
      parse_frame (mkFrameBytes 1 2 0 [] ((c3goodCrc + 1) % 256)) = some (f, n) ∧
      parse_frame (mkFrameBytes 1 2 0 []
        (calculate_crc8 (frameBody 1 2 0 []))) = some (f2, n2) ∧
      f.command = f2.command ∧ f.format = f2.format ∧
      f.sequence = f2.sequence ∧ f.data = f2.data ∧
      f.data_length = f2.data_length ∧ n = n2 ∧ f.crc = (c3goodCrc + 1) % 256 :=
  C3_crc_mismatch_tolerated 1 2 0 ((c3goodCrc + 1) % 256) [] (by decide) (by decide)

/-! ## C4: oversized length handling -/

set_option maxRecDepth 8192 in
/-- Counterexample to C4: `c4buffer` declares a 4 MiB + 1 payload and is
followed by a complete well-formed frame (decodable on its own, as the
second conjunct shows), yet `parse_frame` returns `none` — nothing is
consumed and no subsequent frame is decoded. -/
theorem C4_counterexample :
    parse_frame c4buffer = none ∧
    (parse_frame (c4buffer.drop 6)).isSome = true := by
  decide

/-- C4 (amended): a frame header declaring a payload longer than 4 MiB is
rejected before the payload is sliced: `parse_frame` returns `none`
(no frame, no consumed count) for *any* continuation of the buffer, so the
extraction loop stops and the buffer is not advanced past the magic. -/
theorem C4_oversized_no_drop (l0 l1 l2 l3 : Nat) (rest : List Nat)
    (h : l0 + l1 * 256 + l2 * 65536 + l3 * 16777216 > 4194304) :
    parse_frame (170 :: 85 :: l0 :: l1 :: l2 :: l3 :: rest) = none :=
  parse_frame_oversized l0 l1 l2 l3 rest h

/-- Witness for C4 at a concrete oversized header (length 4 MiB + 1). -/
theorem C4_witness :
    parse_frame (170 :: 85 :: 1 :: 0 :: 64 :: 0 ::
      mkFrameBytes 1 2 7 [9] (calculate_crc8 (frameBody 1 2 7 [9]))) = none :=
  C4_oversized_no_drop 1 0 64 0 _ (by norm_num)
/-! ## C5: frame round-trip and streaming -/

theorem frameBody_length (cmd fmt seq : Nat) (data : List Nat) :
    (frameBody cmd fmt seq data).length = 8 + data.length := by
  simp [frameBody, le32, le16]
  omega

theorem mkFrameBytes_getD_crc (cmd fmt seq crc : Nat) (data : List Nat) :
    (mkFrameBytes cmd fmt seq data crc).getD (10 + data.length) 0 = crc := by
  rw [show mkFrameBytes cmd fmt seq data crc
      = mkFrameBytes cmd fmt seq data crc ++ [] by simp]
  rw [mkFrameBytes_cons]
  rw [getD_shift _ _ _ _ _ _ _ _ cmd fmt data _ (10 + data.length) 0 (by omega)]
  rfl

theorem mkFrameBytes_drop2_take (cmd fmt seq crc : Nat) (data : List Nat) :
    ((mkFrameBytes cmd fmt seq data crc).drop 2).take (8 + data.length)
      = frameBody cmd fmt seq data := by
  show (frameBody cmd fmt seq data ++ [crc, 85, 170]).take (8 + data.length)
      = frameBody cmd fmt seq data
  rw [← frameBody_length cmd fmt seq data]
  exact List.take_left _ _

theorem FrameCrcOk_mk (cmd fmt seq crc : Nat) (data : List Nat) :
    FrameCrcOk (mkFrameBytes cmd fmt seq data crc)
      ↔ crc = calculate_crc8 (frameBody cmd fmt seq data) := by
  unfold FrameCrcOk
  rw [mkFrameBytes_length]
  rw [show 13 + data.length - 3 = 10 + data.length by omega]
  rw [show 13 + data.length - 5 = 8 + data.length by omega]
  rw [mkFrameBytes_getD_crc, mkFrameBytes_drop2_take]

theorem build_response_frame_eq_mk (cmd fmt : Nat) (data : List Nat) (seq : Nat)
    (hc : cmd < 256) (hf : fmt < 256) :
    build_response_frame cmd fmt data seq =
      mkFrameBytes cmd fmt seq data (calculate_crc8 (frameBody cmd fmt seq data)) := by
  unfold build_response_frame mkFrameBytes
  rw [Nat.mod_eq_of_lt hc, Nat.mod_eq_of_lt hf]

set_option maxRecDepth 8192 in
/-- Counterexample to C5: `c5bad` is a well-formed frame (valid magic,
length, trailer — the claim's notion of well-formed does not constrain the
CRC byte, which the decoder tolerates), it decodes successfully, yet
re-encoding the decoded fields yields the correct-CRC frame, which differs
from `c5bad` in the CRC byte: `encode(decode(f)) ≠ f`. -/
theorem C5_counterexample :
    WellFormedFrame c5bad ∧
    parse_frame c5bad = some (⟨1, 2, 7, [9], 1,
      (calculate_crc8 (frameBody 1 2 7 [9]) + 1) % 256⟩, 14) ∧
    build_response_frame 1 2 [9] 7 ≠ c5bad := by
  refine ⟨⟨1, 2, 7, (calculate_crc8 (frameBody 1 2 7 [9]) + 1) % 256, [9],
    by decide, by decide, by decide, by decide, by decide, by decide, rfl⟩,
    by decide, by decide⟩

/-- C5 (amended): for every well-formed frame whose stored CRC byte is the
correct CRC8 of its body, re-encoding the decoded fields reproduces the
frame byte for byte; and the codec is streaming-safe: a buffer holding two
well-formed frames yields the first frame with consumed count equal to its
exact length, dropping which leaves exactly the second frame, which then
decodes in full. -/
theorem C5_roundtrip_streaming (b : List Nat) (h : WellFormedFrame b)
    (hcrc : FrameCrcOk b) :
    (∃ f, parse_frame b = some (f, b.length) ∧
      build_response_frame f.command f.format f.data f.sequence = b) ∧
    (∀ b1 b2, WellFormedFrame b1 → WellFormedFrame b2 →
      ∃ f1 f2, parse_frame b1 = some (f1, b1.length) ∧
        parse_frame (b1 ++ b2) = some (f1, b1.length) ∧
        (b1 ++ b2).drop b1.length = b2 ∧
        parse_frame b2 = some (f2, b2.length)) := by
  constructor
  · obtain ⟨cmd, fmt, seq, crc, data, hc, hf, hs, hr, hb, hl, rfl⟩ := h
    rw [FrameCrcOk_mk] at hcrc
    refine ⟨⟨cmd, fmt, seq, data, data.length, crc⟩, ?_, ?_⟩
    · rw [mkFrameBytes_length]
      exact parse_frame_mk_nil cmd fmt seq crc data hs hl
    · rw [build_response_frame_eq_mk cmd fmt data seq hc hf, ← hcrc]
  · rintro b1 b2 ⟨c1, f1, s1, r1, d1, hc1, hf1, hs1, hr1, hb1, hl1, rfl⟩
      ⟨c2, f2, s2, r2, d2, hc2, hf2, hs2, hr2, hb2, hl2, rfl⟩
    refine ⟨⟨c1, f1, s1, d1, d1.length, r1⟩, ⟨c2, f2, s2, d2, d2.length, r2⟩,
      ?_, ?_, ?_, ?_⟩
    · rw [mkFrameBytes_length]
      exact parse_frame_mk_nil c1 f1 s1 r1 d1 hs1 hl1
    · rw [mkFrameBytes_length]
      exact parse_frame_mk c1 f1 s1 r1 d1 _ hs1 hl1
    · rw [mkFrameBytes_length]
      exact mkFrameBytes_drop c1 f1 s1 r1 d1 _
    · rw [mkFrameBytes_length]
      exact parse_frame_mk_nil c2 f2 s2 r2 d2 hs2 hl2

set_option maxRecDepth 8192 in
/-- Witness for C5 at the concrete correct-CRC frame `c5good`. -/
theorem C5_witness :
    (∃ f, parse_frame c5good = some (f, c5good.length) ∧
      build_response_frame f.command f.format f.data f.sequence = c5good) ∧
    (∀ b1 b2, WellFormedFrame b1 → WellFormedFrame b2 →
      ∃ f1 f2, parse_frame b1 = some (f1, b1.length) ∧
        parse_frame (b1 ++ b2) = some (f1, b1.length) ∧
        (b1 ++ b2).drop b1.length = b2 ∧
        parse_frame b2 = some (f2, b2.length)) :=
  C5_roundtrip_streaming c5good
    ⟨1, 2, 7, calculate_crc8 (frameBody 1 2 7 [9]), [9],
      by decide, by decide, by decide, by decide, by decide, by decide, rfl⟩
    (by unfold FrameCrcOk; decide)
/-! ## C8: timing fields -/

/-- Counterexample to C8: the CONNECT response and the unsupported-format
error response carry a `timestamp` but *no* `processTimeMs` field — both
paths bypass the timing wrapper of `process_request`. -/
theorem C8_counterexample :
    (handle_connect sampleRoot 1000).processTimeMs = none ∧
    (format_error_response 1000).processTimeMs = none := by
  exact ⟨rfl, rfl⟩

/-- C8 (amended): every response that passes through `process_request`
carries `processTimeMs = t1 - t0 ≥ 0` (for monotone clock samples) and
`timestamp` equal to the clock sampled at response time; the CONNECT and
unsupported-format responses carry only the `timestamp` stamp and no
`processTimeMs`. -/
theorem C8_timing (resp : Response) (t0 t1 now : Int) (h : t0 ≤ t1) :
    (process_request_timing resp t0 t1).processTimeMs = some (t1 - t0) ∧
    0 ≤ t1 - t0 ∧
    (process_request_timing resp t0 t1).timestamp = some t1 ∧
    (handle_connect sampleRoot now).processTimeMs = none ∧
    (handle_connect sampleRoot now).timestamp = some now ∧
    (format_error_response now).processTimeMs = none ∧
    (format_error_response now).timestamp = some now :=
  ⟨rfl, by omega, rfl, rfl, rfl, rfl, rfl⟩

/-- Witness for C8 at concrete clock samples 5 ≤ 7. -/
theorem C8_witness :
    (process_request_timing {} 5 7).processTimeMs = some (7 - 5) ∧
    0 ≤ (7 : Int) - 5 ∧
    (process_request_timing {} 5 7).timestamp = some 7 ∧
    (handle_connect sampleRoot 9).processTimeMs = none ∧
    (handle_connect sampleRoot 9).timestamp = some 9 ∧
    (format_error_response 9).processTimeMs = none ∧
    (format_error_response 9).timestamp = some 9 :=
  C8_timing {} 5 7 9 (by norm_num)

/-! ## C9: LIST_FILES ordering -/

/-- Counterexample to C9: with children `a.txt` and `B.txt`, the returned
list is ordered `B.txt, a.txt` (case-sensitive codepoint comparison of
`sorted(Path…)`), which is not sorted case-insensitively (`a` < `b`). -/
theorem C9_counterexample :
    (list_files_entries [entryLowerA, entryUpperB]).map (fun f => f.name)
      = ["B.txt", "a.txt"] ∧
    ¬ List.Sorted specCaseInsensitiveLe
      (list_files_entries [entryLowerA, entryUpperB]) := by
  constructor
  · decide
  · decide
theorem nameLe_total (a b : String) : nameLe a b ∨ nameLe b a := by
  by_cases h : nameLt b a
  · right
    intro h2
    have h2x : List.Lex (· < ·) a.data b.data := h2
    have hx : List.Lex (· < ·) b.data a.data := h
    exact absurd hx (asymm h2x)
  · left
    exact h

theorem nameLe_trans (a b c : String) (h1 : nameLe a b) (h2 : nameLe b c) :
    nameLe a c := by
  intro hca
  rcases IsOrderConnected.conn _ b.data _ hca with h | h
  · exact h2 h
  · exact h1 h

theorem insertSorted_perm (e : DirEntry) (l : List DirEntry) :
    (insertSorted e l).Perm (e :: l) := by
  induction l with
  | nil => exact List.Perm.refl _
  | cons x xs ih =>
    by_cases h : nameLe e.name x.name
    · rw [show insertSorted e (x :: xs) = e :: x :: xs from by
        simp [insertSorted, h]]
    · rw [show insertSorted e (x :: xs) = x :: insertSorted e xs from by
        simp [insertSorted, h]]
      exact (List.Perm.cons x ih).trans (List.Perm.swap e x xs)

theorem sortEntries_perm (l : List DirEntry) : (sortEntries l).Perm l := by
  induction l with
  | nil => exact List.Perm.refl _
  | cons x xs ih =>
    exact (insertSorted_perm x (sortEntries xs)).trans (List.Perm.cons x ih)

theorem insertSorted_sorted (e : DirEntry) (l : List DirEntry)
    (h : List.Sorted (fun a b => nameLe a.name b.name) l) :
    List.Sorted (fun a b => nameLe a.name b.name) (insertSorted e l) := by
  induction l with
  | nil => simp [insertSorted]
  | cons x xs ih =>
    rw [List.sorted_cons] at h
    by_cases hc : nameLe e.name x.name
    · rw [show insertSorted e (x :: xs) = e :: x :: xs from by
        simp [insertSorted, hc]]
      rw [List.sorted_cons]
      refine ⟨?_, List.sorted_cons.mpr h⟩
      intro b hb
      rcases List.mem_cons.mp hb with rfl | hb2
      · exact hc
      · exact nameLe_trans _ _ _ hc (h.1 b hb2)
    · rw [show insertSorted e (x :: xs) = x :: insertSorted e xs from by
        simp [insertSorted, hc]]
      rw [List.sorted_cons]
      refine ⟨?_, ih h.2⟩
      intro b hb
      have hmem := (insertSorted_perm e xs).mem_iff.mp hb
      rcases List.mem_cons.mp hmem with rfl | hm
      · rcases nameLe_total b.name x.name with ht | ht
        · exact absurd ht hc
        · exact ht
      · exact h.1 b hm

theorem sortEntries_sorted (l : List DirEntry) :
    List.Sorted (fun a b => nameLe a.name b.name) (sortEntries l) := by
  induction l with
  | nil => simp [sortEntries]
  | cons x xs ih => exact insertSorted_sorted x (sortEntries xs) ih

/-- C9 (amended): the returned `files` list is a permutation of the
`FileInfo` records of the directory's immediate children, sorted by name
in the *case-sensitive* codepoint order that `sorted()` applies to `Path`
objects (not case-insensitively), and every directory entry has size 0. -/
theorem C9_list_files (entries : List DirEntry) :
    (list_files_entries entries).Perm (entries.map entryToFileInfo) ∧
    List.Sorted (fun a b : FileInfo => nameLe a.name b.name)
      (list_files_entries entries) ∧
    (∀ f ∈ list_files_entries entries, f.type = "directory" → f.size = 0) := by
  refine ⟨List.Perm.map entryToFileInfo (sortEntries_perm entries), ?_, ?_⟩
  · have hs := sortEntries_sorted entries
    unfold list_files_entries
    rw [List.Sorted, List.pairwise_map]
    exact hs.imp (fun h => h)
  · intro f hf hty
    have hf2 : f ∈ entries.map entryToFileInfo :=
      (List.Perm.mem_iff (List.Perm.map entryToFileInfo
        (sortEntries_perm entries))).mp hf
    obtain ⟨e, he, rfl⟩ := List.mem_map.mp hf2
    by_cases hd : e.isDir
    · simp [entryToFileInfo, hd]
    · refine absurd hty ?_
      simp [entryToFileInfo, hd]
/-! ## C6: upload idempotence -/

theorem upload_data_core_received_bytes (t : UploadSession) (g : Fs)
    (sid : String) (i : Nat) (d : List Nat) (tc : Option Nat) (now : Int)
    (h : i ∈ t.received_chunks) :
    (upload_data_core t g sid i d tc now).1.bytes_received
      = t.bytes_received := by
  unfold upload_data_core
  rcases hg : g t.file_path with _ | node
  · simp [hg]
  · cases node with
    | file c => simp [hg, h]
    | dir => simp [hg]

theorem runUploadData_sum (sz : Nat → Nat) (sid : String) (now : Int)
    (deliveries : List (Nat × List Nat)) :
    ∀ (s : UploadSession) (fs : Fs),
      (∀ d ∈ deliveries, (d.2 : List Nat).length = sz d.1) →
      s.bytes_received = ∑ i ∈ s.received_chunks, sz i →
      (runUploadData s fs sid now deliveries).1.bytes_received =
        ∑ i ∈ (runUploadData s fs sid now deliveries).1.received_chunks, sz i := by
  induction deliveries with
  | nil =>
    intro s fs _ h
    exact h
  | cons p rest ih =>
    intro s fs hsz hinv
    have hrun : runUploadData s fs sid now (p :: rest)
        = runUploadData (upload_data_core s fs sid p.1 p.2 none now).1
            (upload_data_core s fs sid p.1 p.2 none now).2.1 sid now rest := rfl
    rw [hrun]
    apply ih _ _ (fun d hd => hsz d (List.mem_cons_of_mem _ hd))
    have hlen : p.2.length = sz p.1 := hsz p (List.mem_cons_self _ _)
    unfold upload_data_core
    rcases hg : fs s.file_path with _ | node
    · simpa [hg] using hinv
    · cases node with
      | file c =>
        by_cases hmem : p.1 ∈ s.received_chunks
        · simp [hg, hmem, Finset.insert_eq_self.mpr hmem, hinv]
        · simp only [hg]
          simp [hmem, Finset.sum_insert hmem, hinv, hlen]
          omega
      | dir => simpa [hg] using hinv

/-- C6: delivering a chunk index a second time does not change
`bytes_received`, and after any sequence of `UPLOAD_DATA` deliveries to a
fresh session whose chunk `i` always carries `sz i` bytes,
`bytes_received` equals the sum of `sz` over the distinct indices in
`received_chunks`. -/
theorem C6_upload_idempotent (sz : Nat → Nat) (s : UploadSession) (fs : Fs)
    (sid : String) (now : Int) (deliveries : List (Nat × List Nat))
    (hsz : ∀ d ∈ deliveries, (d.2 : List Nat).length = sz d.1)
    (hfresh : s.received_chunks = ∅) (hzero : s.bytes_received = 0) :
    (runUploadData s fs sid now deliveries).1.bytes_received =
      (∑ i ∈ (runUploadData s fs sid now deliveries).1.received_chunks, sz i) ∧
    (∀ (t : UploadSession) (g : Fs) (i : Nat) (d : List Nat) (tc : Option Nat),
      i ∈ t.received_chunks →
      (upload_data_core t g sid i d tc now).1.bytes_received
        = t.bytes_received) := by
  constructor
  · exact runUploadData_sum sz sid now deliveries s fs hsz
      (by rw [hfresh, hzero]; simp)
  · intro t g i d tc h
    exact upload_data_core_received_bytes t g sid i d tc now h

/-- Witness for C6: two deliveries of chunk 0 and one of chunk 1, two
bytes each. -/
theorem C6_witness :
    (runUploadData c6session c6fs "u1" 5 [(0, [5, 6]), (0, [5, 6]), (1, [7, 8])]).1.bytes_received =
      (∑ i ∈ (runUploadData c6session c6fs "u1" 5
        [(0, [5, 6]), (0, [5, 6]), (1, [7, 8])]).1.received_chunks, (2 : Nat)) ∧
    (∀ (t : UploadSession) (g : Fs) (i : Nat) (d : List Nat) (tc : Option Nat),
      i ∈ t.received_chunks →
      (upload_data_core t g "u1" i d tc 5).1.bytes_received
        = t.bytes_received) :=
  C6_upload_idempotent (fun _ => 2) c6session c6fs "u1" 5
    [(0, [5, 6]), (0, [5, 6]), (1, [7, 8])] (by decide) (by decide) (by decide)

/-! ## C7: download monotonicity -/

theorem download_chunk_step (t : DownloadSession) (content : List Nat)
    (sid : String) (a b : Option Nat) :
    t.servedChunks ⊆ (download_chunk t content sid a b).1.servedChunks ∧
    t.nextChunk ≤ (download_chunk t content sid a b).1.nextChunk ∧
    ((∀ i ∈ t.servedChunks, i < t.nextChunk) →
      ∀ i ∈ (download_chunk t content sid a b).1.servedChunks,
        i < (download_chunk t content sid a b).1.nextChunk) := by
  simp only [download_chunk]
  split
  · exact ⟨Finset.Subset.refl _, Nat.le_refl _, fun h => h⟩
  · split
    · exact ⟨Finset.Subset.refl _, Nat.le_refl _, fun h => h⟩
    · split
      · refine ⟨Finset.Subset.refl _, Nat.le_max_left _ _, ?_⟩
        intro hInv i hi
        exact lt_of_lt_of_le (hInv i hi) (Nat.le_max_left _ _)
      · refine ⟨Finset.subset_insert _ _, Nat.le_max_left _ _, ?_⟩
        intro hInv i hi
        rcases Finset.mem_insert.mp hi with h0 | hi2
        · rw [h0]
          exact lt_of_lt_of_le (Nat.lt_succ_self _) (Nat.le_max_right _ _)
        · exact lt_of_lt_of_le (hInv i hi2) (Nat.le_max_left _ _)

theorem runChunks_mono (content : List Nat) (sid : String)
    (reqs : List (Option Nat × Option Nat)) :
    ∀ s : DownloadSession,
      s.servedChunks ⊆ (runChunks s content sid reqs).servedChunks ∧
      s.nextChunk ≤ (runChunks s content sid reqs).nextChunk ∧
      ((∀ i ∈ s.servedChunks, i < s.nextChunk) →
        ∀ i ∈ (runChunks s content sid reqs).servedChunks,
          i < (runChunks s content sid reqs).nextChunk) := by
  induction reqs with
  | nil =>
    intro s
    exact ⟨Finset.Subset.refl _, Nat.le_refl _, fun h => h⟩
  | cons r rest ih =>
    intro s
    have hstep := download_chunk_step s content sid r.1 r.2
    have hrest := ih (download_chunk s content sid r.1 r.2).1
    have hrun : runChunks s content sid (r :: rest)
        = runChunks (download_chunk s content sid r.1 r.2).1 content sid rest := rfl
    rw [hrun]
    exact ⟨hstep.1.trans hrest.1, hstep.2.1.trans hrest.2.1,
      fun h => hrest.2.2 (hstep.2.2 h)⟩

/-- C7: `servedChunks` only grows under each `chunk` operation and
`nextChunk` never decreases; across any sequence of `chunk` operations on
a session satisfying the start invariant, `servedChunks` grows, `nextChunk`
is monotone, and every served index stays below `nextChunk`
(equivalently `nextChunk ≥ max servedChunks + 1`). -/
theorem C7_download_monotonic (s : DownloadSession) (content : List Nat)
    (sid : String) (reqs : List (Option Nat × Option Nat))
    (hInv : ∀ i ∈ s.servedChunks, i < s.nextChunk) :
    (∀ (t : DownloadSession) (a b : Option Nat),
      t.servedChunks ⊆ (download_chunk t content sid a b).1.servedChunks ∧
      t.nextChunk ≤ (download_chunk t content sid a b).1.nextChunk) ∧
    s.servedChunks ⊆ (runChunks s content sid reqs).servedChunks ∧
    s.nextChunk ≤ (runChunks s content sid reqs).nextChunk ∧
    (∀ i ∈ (runChunks s content sid reqs).servedChunks,
      i < (runChunks s content sid reqs).nextChunk) :=
  ⟨fun t a b => ⟨(download_chunk_step t content sid a b).1,
    (download_chunk_step t content sid a b).2.1⟩,
    (runChunks_mono content sid reqs s).1,
    (runChunks_mono content sid reqs s).2.1,
    (runChunks_mono content sid reqs s).2.2 hInv⟩

/-- Witness for C7: a fresh two-chunk session over a 3-byte file, with
chunk 0 requested twice. -/
theorem C7_witness :
    (∀ (t : DownloadSession) (a b : Option Nat),
      t.servedChunks ⊆ (download_chunk t [1, 2, 3] "d1" a b).1.servedChunks ∧
      t.nextChunk ≤ (download_chunk t [1, 2, 3] "d1" a b).1.nextChunk) ∧
    c7session.servedChunks ⊆
      (runChunks c7session [1, 2, 3] "d1"
        [(some 0, none), (none, some 1), (some 0, none)]).servedChunks ∧
    c7session.nextChunk ≤
      (runChunks c7session [1, 2, 3] "d1"
        [(some 0, none), (none, some 1), (some 0, none)]).nextChunk ∧
    (∀ i ∈ (runChunks c7session [1, 2, 3] "d1"
        [(some 0, none), (none, some 1), (some 0, none)]).servedChunks,
      i < (runChunks c7session [1, 2, 3] "d1"
        [(some 0, none), (none, some 1), (some 0, none)]).nextChunk) :=
  C7_download_monotonic c7session [1, 2, 3] "d1"
    [(some 0, none), (none, some 1), (some 0, none)] (by decide)
/-! ## C10: UPLOAD_REQ replacement semantics -/

theorem find?_append_single {α : Type} (pred : α → Bool) (t : List α) (x : α)
    (h : List.find? pred t = none) (hx : pred x = true) :
    List.find? pred (t ++ [x]) = some x := by
  induction t with
  | nil => simpa using List.find?_cons_of_pos [] hx
  | cons p t ih =>
    have hp : ¬ pred p = true := by
      intro hb
      rw [List.find?_cons_of_pos _ hb] at h
      exact Option.noConfusion h
    rw [List.cons_append, List.find?_cons_of_neg _ hp]
    rw [List.find?_cons_of_neg _ hp] at h
    exact ih h

theorem find?_map_replace {α : Type} (t : List (String × α)) (k : String) (v : α)
    (h : (List.find? (fun p => p.1 == k) t).isSome = true) :
    List.find? (fun p => p.1 == k)
        (t.map (fun p => if p.1 == k then (k, v) else p)) = some (k, v) := by
  induction t with
  | nil => simp at h
  | cons p t ih =>
    by_cases hp : (p.1 == k) = true
    · rw [List.map_cons, if_pos hp]
      exact List.find?_cons_of_pos _ (by simp)
    · rw [List.map_cons, if_neg hp, List.find?_cons_of_neg _ (by simpa using hp)]
      rw [List.find?_cons_of_neg (p := fun q => q.1 == k) t hp] at h
      exact ih h

theorem dictGet_dictSet {α : Type} (t : List (String × α)) (k : String) (v : α) :
    dictGet (dictSet t k v) k = some v := by
  unfold dictGet dictSet
  by_cases h : (List.find? (fun p => p.1 == k) t).isSome = true
  · rw [if_pos h, find?_map_replace t k v h]
    rfl
  · rw [if_neg h]
    have hnone : List.find? (fun p => p.1 == k) t = none := by
      cases hf : List.find? (fun p => p.1 == k) t with
      | none => rfl
      | some x =>
        rw [hf] at h
        exact absurd rfl h
    rw [find?_append_single _ t (k, v) hnone (by simp)]
    rfl

/-- C10: an `UPLOAD_REQ` whose `options.sessionId` names an existing
session succeeds, installs a replacement session with empty
`received_chunks` and `bytes_received = 0`, and resets the target file to
`fileSize` zero bytes — discarding both previously written chunk data and
any pre-existing file at the target path. -/
theorem C10_upload_req_reset (root : List String) (fs : Fs)
    (sessions : List (String × UploadSession)) (old : UploadSession)
    (sid : String) (req : UpReq) (now : Int) (tdir : List String)
    (hsid : req.optionsSessionId = some sid) (hsid2 : sid ≠ "")
    (hname : (req.name).getD "" ≠ "")
    (hold : dictGet sessions sid = some old)
    (hres : (if req.path = "/" then some root else get_safe_path root req.path)
      = some tdir) :
    (handle_upload_req root fs sessions req now).1.success = true ∧
    (∃ s2 : UploadSession,
      dictGet (handle_upload_req root fs sessions req now).2.1 sid = some s2 ∧
      s2.received_chunks = ∅ ∧ s2.bytes_received = 0 ∧
      s2.file_path = resolveDots (pyJoin tdir ((req.name).getD "")) ∧
      s2.file_size = (req.fileSize).getD 0) ∧
    (handle_upload_req root fs sessions req now).2.2
        (resolveDots (pyJoin tdir ((req.name).getD "")))
      = some (FsNode.file (List.replicate ((req.fileSize).getD 0) 0)) := by
  simp only [handle_upload_req]
  rw [if_neg hname, hsid]
  simp only [Option.getD_some]
  rw [if_pos hsid2, hres]
  refine ⟨rfl, ⟨_, dictGet_dictSet _ _ _, rfl, rfl, rfl, rfl⟩, ?_⟩
  simp [fsSet]
/-- Witness for C10: replacing the existing session `sid9`, whose target
file holds partial data. -/
theorem C10_witness :
    (handle_upload_req sampleRoot c10fs [("sid9", c10oldSession)] c10req 99).1.success = true ∧
    (∃ s2 : UploadSession,
      dictGet (handle_upload_req sampleRoot c10fs
        [("sid9", c10oldSession)] c10req 99).2.1 "sid9" = some s2 ∧
      s2.received_chunks = ∅ ∧ s2.bytes_received = 0 ∧
      s2.file_path = resolveDots (pyJoin sampleRoot ((c10req.name).getD "")) ∧
      s2.file_size = (c10req.fileSize).getD 0) ∧
    (handle_upload_req sampleRoot c10fs [("sid9", c10oldSession)] c10req 99).2.2
        (resolveDots (pyJoin sampleRoot ((c10req.name).getD "")))
      = some (FsNode.file (List.replicate ((c10req.fileSize).getD 0) 0)) :=
  C10_upload_req_reset sampleRoot c10fs [("sid9", c10oldSession)] c10oldSession
    "sid9" c10req 99 sampleRoot rfl (by decide) (by decide) (by decide) rfl
end TcpServer
